import Mathlib

/-!
Verification of the outfit-composition scoring engine
(`backend/services/outfit_engine.py`) against its specification.

The Python code is embedded shallowly: clothing items and outfit records
become structures, dictionary lookups with defaults become total functions
returning `Option`, Python truthiness of optional strings/ids is modelled
explicitly, the stable `list.sort`/`sorted` becomes `List.insertionSort`
(a stable sort), and every call to `random.choice` is modelled by an
explicit `rng : Nat` index reduced modulo the pool size.
-/

/-- Python `str.lower`, restricted to the ASCII color and style names the
engine manipulates. -/
def lowerStr (s : String) : String := String.mk (s.data.map Char.toLower)

/-- Truthiness of an optional Python string: `None` and `""` are falsy. -/
def optStrTruthy : Option String → Bool
  | some s => s ≠ ""
  | none => false

/-- Python `(x or default)` applied to an optional string field: the default
is used when the field is `None` or the empty string. -/
def orDefaultStr (o : Option String) (d : String) : String :=
  match o with
  | some s => if s = "" then d else s
  | none => d

/-- Truthiness of an optional Python integer id: `None` and `0` are falsy. -/
def idTruthy : Option Nat → Bool
  | some n => n ≠ 0
  | none => false

/-- A wardrobe item as seen by the engine through `ClothingItem.to_dict`:
the fields the engine reads (`id`, `category`, `primaryColor`, `style`,
`wearCount`).  `primaryColor` and `style` are nullable columns, hence
`Option String`; `wearCount` defaults to 0 in the model. -/
structure WItem where
  id : Nat
  category : String
  primaryColor : Option String
  style : Option String
  wearCount : Nat
deriving Repr, DecidableEq

/-- A persisted `Outfit` row: slot ids are nullable foreign keys,
`created_at` is modelled as a numeric timestamp. -/
structure OutfitRow where
  id : Nat
  name : String
  style_tag : String
  description : String
  top_id : Option Nat
  bottom_id : Option Nat
  layer_id : Option Nat
  shoes_id : Option Nat
  accessory_id : Option Nat
  created_at : Nat
  is_liked : Bool
  is_saved : Bool
deriving Repr, DecidableEq

/-- The database visible to the engine: the wardrobe items and the persisted
outfit records, each in store order. -/
structure Store where
  items : List WItem
  outfits : List OutfitRow
deriving Repr, DecidableEq

/-- `NEUTRAL_COLORS` from the engine. -/
def NEUTRAL_COLORS : List String :=
  ["white", "black", "gray", "beige", "cream", "tan", "navy"]

/-- `COMPLEMENTARY_PAIRS.get(c, [])`: the complementary-color table, with the
empty list for colors outside the table. -/
def COMPLEMENTARY_PAIRS (c : String) : List String :=
  if c = "blue" then ["orange", "tan", "cream"]
  else if c = "red" then ["green", "gray"]
  else if c = "green" then ["red", "pink"]
  else if c = "yellow" then ["purple", "navy"]
  else if c = "purple" then ["yellow", "cream"]
  else if c = "orange" then ["blue", "navy"]
  else if c = "pink" then ["green", "gray"]
  else if c = "navy" then ["white", "cream", "tan", "orange"]
  else if c = "brown" then ["blue", "cream", "white"]
  else []

/-- `STYLE_COMPATIBILITY.get(s, [s])`: the style-compatibility table, an
unknown style being compatible only with itself. -/
def STYLE_COMPATIBILITY (s : String) : List String :=
  if s = "casual" then ["casual", "sporty", "streetwear"]
  else if s = "formal" then ["formal"]
  else if s = "sporty" then ["sporty", "casual"]
  else if s = "streetwear" then ["streetwear", "casual", "sporty"]
  else [s]

/-- The `STYLE_DESCRIPTIONS['casual']` phrase list. -/
def casualDescriptions : List String :=
  ["easy, balanced, works today",
   "relaxed vibes, effortless style",
   "simple and clean look"]

/-- The `STYLE_DESCRIPTIONS` dictionary as a partial lookup. -/
def styleDescriptionsGet (s : String) : Option (List String) :=
  if s = "casual" then some casualDescriptions
  else if s = "formal" then
    some ["polished and professional",
          "sharp and sophisticated",
          "dressed to impress"]
  else if s = "sporty" then
    some ["active and ready to move",
          "comfortable with an edge",
          "athleisure done right"]
  else if s = "streetwear" then
    some ["urban cool, street ready",
          "bold statement piece",
          "trendy and expressive"]
  else none

/-- `STYLE_DESCRIPTIONS.get(s, STYLE_DESCRIPTIONS['casual'])`. -/
def descriptions_for (s : String) : List String :=
  (styleDescriptionsGet s).getD casualDescriptions

/-- The `STYLE_TAGS` dictionary as a partial lookup. -/
def styleTagsGet (s : String) : Option String :=
  if s = "casual" then some "Clean Casual"
  else if s = "formal" then some "Smart Formal"
  else if s = "sporty" then some "Active Fit"
  else if s = "streetwear" then some "Street Style"
  else none

/-- `STYLE_TAGS.get(s, 'Clean Casual')`. -/
def style_tag_for (s : String) : String := (styleTagsGet s).getD "Clean Casual"

/-- The lowercased primary color of an item:
`(item.get('primaryColor') or '').lower()`. -/
def itemColorLower (i : WItem) : String := lowerStr (i.primaryColor.getD "")

/-- The style of an item defaulted to casual:
`(item.get('style') or 'casual')`. -/
def itemStyleOrCasual (i : WItem) : String := orDefaultStr i.style "casual"

/-- The color-harmony case analysis of `_select_matching_item` on two
non-empty lowercased colors (the nested `if`/`elif` chain). -/
def colorScore (item_color ref_color : String) : Nat :=
  if item_color ∈ NEUTRAL_COLORS then 3
  else if ref_color ∈ NEUTRAL_COLORS then 2
  else if item_color ∈ COMPLEMENTARY_PAIRS ref_color then 4
  else if item_color = ref_color then 1
  else 0

/-- The color term of a candidate against the mandatory reference: the
color-harmony block guarded by `if item_color and ref_color`. -/
def color_term (item ref : WItem) : Nat :=
  if itemColorLower item ≠ "" ∧ itemColorLower ref ≠ "" then
    colorScore (itemColorLower item) (itemColorLower ref)
  else 0

/-- The total score one candidate receives in `_select_matching_item`:
color term, style-compatibility term, style-preference term, low-wear term
and fresh-item term. -/
def scoreItem (item ref : WItem) (style_pref : Option String) : Nat :=
  color_term item ref
  + (if itemStyleOrCasual item ∈ STYLE_COMPATIBILITY (itemStyleOrCasual ref) then 2 else 0)
  + (if optStrTruthy style_pref ∧ style_pref = some (itemStyleOrCasual item) then 1 else 0)
  + (if item.wearCount < 3 then 1 else 0)
  + (if item.wearCount = 0 then 2 else 0)

/-- Model of `random.choice(l)`: the caller-supplied random index `rng` is
reduced modulo the pool size; `none` on an empty pool (where the Python call
would raise). -/
def randomChoice {α : Type} (l : List α) (rng : Nat) : Option α := l[rng % l.length]?

/-- C1: for every candidate and mandatory reference with non-empty
(lowercased) primary colors, the color term is +3 when the candidate color
is neutral; otherwise +2 when the reference color is neutral; otherwise +4
when the candidate color is complementary to the reference color; otherwise
+1 when the colors are equal; otherwise +0 — only the first matching case
applies. -/
theorem color_term_priority (item ref : WItem)
    (h1 : itemColorLower item ≠ "") (h2 : itemColorLower ref ≠ "") :
    (itemColorLower item ∈ NEUTRAL_COLORS → color_term item ref = 3) ∧
    (itemColorLower item ∉ NEUTRAL_COLORS → itemColorLower ref ∈ NEUTRAL_COLORS →
      color_term item ref = 2) ∧
    (itemColorLower item ∉ NEUTRAL_COLORS → itemColorLower ref ∉ NEUTRAL_COLORS →
      itemColorLower item ∈ COMPLEMENTARY_PAIRS (itemColorLower ref) →
      color_term item ref = 4) ∧
    (itemColorLower item ∉ NEUTRAL_COLORS → itemColorLower ref ∉ NEUTRAL_COLORS →
      itemColorLower item ∉ COMPLEMENTARY_PAIRS (itemColorLower ref) →
      itemColorLower item = itemColorLower ref → color_term item ref = 1) ∧
    (itemColorLower item ∉ NEUTRAL_COLORS → itemColorLower ref ∉ NEUTRAL_COLORS →
      itemColorLower item ∉ COMPLEMENTARY_PAIRS (itemColorLower ref) →
      itemColorLower item ≠ itemColorLower ref → color_term item ref = 0) := by
  unfold color_term colorScore
  rw [if_pos ⟨h1, h2⟩]
  refine ⟨fun ha => by rw [if_pos ha], fun ha hb => ?_, fun ha hb hc => ?_,
    fun ha hb hc hd => ?_, fun ha hb hc hd => ?_⟩
  · rw [if_neg ha, if_pos hb]
  · rw [if_neg ha, if_neg hb, if_pos hc]
  · rw [if_neg ha, if_neg hb, if_neg hc, if_pos hd]
  · rw [if_neg ha, if_neg hb, if_neg hc, if_neg hd]

/-- A concrete orange candidate item. -/
def cOrange : WItem := ⟨1, "bottoms", some "Orange", some "casual", 0⟩

/-- A concrete blue reference item. -/
def cBlue : WItem := ⟨2, "tops", some "Blue", some "casual", 0⟩

/-- Witness for C1: an orange candidate against a blue reference hits the
complementary case and receives +4. -/
theorem color_term_priority_witness :
    itemColorLower cOrange ≠ "" ∧ color_term cOrange cBlue = 4 :=
  ⟨by decide,
    (color_term_priority cOrange cBlue (by decide) (by decide)).2.2.1
      (by decide) (by decide) (by decide)⟩

/-- A concrete red candidate item. -/
def cRed : WItem := ⟨3, "bottoms", some "red", some "casual", 0⟩

/-- A concrete navy reference item. -/
def cNavy : WItem := ⟨4, "tops", some "navy", some "casual", 0⟩

/-- C2 counterexample: a red candidate against a navy reference receives a
color term of +2 (reference-neutral case), not +3 as claimed. -/
theorem red_navy_color_term_cex :
    color_term cRed cNavy = 2 ∧ color_term cRed cNavy ≠ 3 := by decide

/-- C2 (amended): a candidate whose primary color is red scored against a
mandatory reference whose primary color is navy receives a color term of
exactly +2. -/
theorem red_navy_color_term_amended (item ref : WItem)
    (h1 : itemColorLower item = "red") (h2 : itemColorLower ref = "navy") :
    color_term item ref = 2 := by
  unfold color_term
  rw [h1, h2]
  decide

/-- Witness for the amended C2 at concrete red and navy items. -/
theorem red_navy_color_term_amended_witness : color_term cRed cNavy = 2 :=
  red_navy_color_term_amended cRed cNavy (by decide) (by decide)

/-- Ascending order on wear count, the sort key of `_select_item`
(`key=lambda x: x.get('wearCount', 0)`). -/
def wearLe (a b : WItem) : Prop := a.wearCount ≤ b.wearCount

instance : DecidableRel wearLe := fun a b => Nat.decLe a.wearCount b.wearCount

instance : IsTotal WItem wearLe := ⟨fun a b => Nat.le_total a.wearCount b.wearCount⟩

instance : IsTrans WItem wearLe := ⟨fun _ _ _ => Nat.le_trans⟩

/-- Descending order on the score component, the sort key of
`_select_matching_item` (`key=lambda x: -x[1]`). -/
def scoreGe (a b : WItem × Nat) : Prop := b.2 ≤ a.2

instance : DecidableRel scoreGe := fun a b => Nat.decLe b.2 a.2

instance : IsTotal (WItem × Nat) scoreGe := ⟨fun a b => Nat.le_total b.2 a.2⟩

instance : IsTrans (WItem × Nat) scoreGe := ⟨fun _ _ _ h1 h2 => Nat.le_trans h2 h1⟩

/-- The narrowing step of `_select_item`: when a truthy style preference is
given and some candidate's raw style equals it, keep only those matches. -/
def narrowed (items : List WItem) (style_pref : Option String) : List WItem :=
  if optStrTruthy style_pref then
    if (items.filter (fun i => decide (i.style = style_pref))).isEmpty then items
    else items.filter (fun i => decide (i.style = style_pref))
  else items

/-- The low-wear pool of `_select_item`: the first `min(3, count)` elements
of the narrowed candidates sorted ascending by wear count (stable sort, as
Python's `sorted`). -/
def low_wear_pool (items : List WItem) (style_pref : Option String) : List WItem :=
  let s := List.insertionSort wearLe (narrowed items style_pref)
  s.take (min 3 s.length)

/-- `_select_item`: `None` on an empty candidate list, otherwise a
`random.choice` from the low-wear pool. -/
def select_item (items : List WItem) (style_pref : Option String) (rng : Nat) :
    Option WItem :=
  if items.isEmpty then none
  else randomChoice (low_wear_pool items style_pref) rng

/-- The scored candidate list of `_select_matching_item`. -/
def scored_items (items : List WItem) (ref : WItem) (style_pref : Option String) :
    List (WItem × Nat) :=
  items.map (fun i => (i, scoreItem i ref style_pref))

/-- The top-candidate pool of `_select_matching_item`: the first
`min(3, count)` of the scored candidates sorted descending by score
(stable sort, as Python's `list.sort`). -/
def top_candidates (items : List WItem) (ref : WItem) (style_pref : Option String) :
    List (WItem × Nat) :=
  let s := List.insertionSort scoreGe (scored_items items ref style_pref)
  s.take (min 3 s.length)

/-- `_select_matching_item`: `None` on an empty candidate list; a
`random.choice` from the top-candidate pool when that pool is non-empty;
otherwise the defensive `random.choice` over the full input list.  The
`secondary_ref` parameter is accepted but never read, as in the source. -/
def select_matching_item (items : List WItem) (ref : WItem)
    (style_pref : Option String) (secondary_ref : Option WItem) (rng : Nat) :
    Option WItem :=
  if items.isEmpty then none
  else if (top_candidates items ref style_pref).isEmpty then randomChoice items rng
  else (randomChoice (top_candidates items ref style_pref) rng).map Prod.fst

/-- Any value returned by `randomChoice` is a member of the pool. -/
theorem randomChoice_mem {α : Type} {l : List α} {rng : Nat} {x : α}
    (h : randomChoice l rng = some x) : x ∈ l := by
  unfold randomChoice at h
  rw [List.getElem?_eq_some_iff] at h
  obtain ⟨hlt, hx⟩ := h
  exact hx ▸ List.getElem_mem hlt

/-- On a non-empty pool `randomChoice` always succeeds with a member. -/
theorem randomChoice_isSome {α : Type} {l : List α} (rng : Nat) (h : l ≠ []) :
    ∃ x, randomChoice l rng = some x ∧ x ∈ l := by
  have hpos : 0 < l.length := List.length_pos.mpr h
  have hlt : rng % l.length < l.length := Nat.mod_lt _ hpos
  exact ⟨l[rng % l.length], by unfold randomChoice; exact List.getElem?_eq_some_iff.mpr ⟨hlt, rfl⟩,
    List.getElem_mem hlt⟩

/-- Every member of the pool is reached by `randomChoice` for some random
index. -/
theorem randomChoice_surj {α : Type} {l : List α} {x : α} (h : x ∈ l) :
    ∃ rng, randomChoice l rng = some x := by
  obtain ⟨n, hn⟩ := List.mem_iff_getElem?.mp h
  have hlt : n < l.length := (List.getElem?_eq_some_iff.mp hn).1
  refine ⟨n, ?_⟩
  unfold randomChoice
  rw [Nat.mod_eq_of_lt hlt]
  exact hn

/-- C7: the result of the Matching Selector — hence every candidate's total
score — does not depend on the optional secondary reference item: two runs
differing only in the secondary reference coincide. -/
theorem matching_ignores_secondary_ref (items : List WItem) (ref : WItem)
    (style_pref : Option String) (sr1 sr2 : Option WItem) (rng : Nat) :
    select_matching_item items ref style_pref sr1 rng =
      select_matching_item items ref style_pref sr2 rng := rfl

/-- The narrowed candidate set is a subset of the input list. -/
theorem narrowed_subset (items : List WItem) (p : Option String) :
    narrowed items p ⊆ items := by
  unfold narrowed
  split
  · split
    · exact fun a ha => ha
    · exact (List.filter_sublist _).subset
  · exact fun a ha => ha

/-- Narrowing a non-empty candidate list yields a non-empty list. -/
theorem narrowed_ne_nil {items : List WItem} (p : Option String) (h : items ≠ []) :
    narrowed items p ≠ [] := by
  unfold narrowed
  split
  · split
    · exact h
    · next hne =>
      intro hnil
      rw [hnil] at hne
      exact hne rfl
  · exact h

/-- When a truthy preference has at least one exact match, narrowing keeps
exactly the matches. -/
theorem narrowed_eq_filter (items : List WItem) (p : Option String)
    (h : ∃ i ∈ items, i.style = p ∧ optStrTruthy p = true) :
    narrowed items p = items.filter (fun i => decide (i.style = p)) := by
  obtain ⟨i, hi, hstyle, htruthy⟩ := h
  have hmem : i ∈ items.filter (fun i => decide (i.style = p)) :=
    List.mem_filter.mpr ⟨hi, by simp [hstyle]⟩
  have hne : items.filter (fun i => decide (i.style = p)) ≠ [] :=
    List.ne_nil_of_mem hmem
  unfold narrowed
  rw [if_pos htruthy, if_neg]
  intro hempty
  exact hne (List.isEmpty_iff.mp hempty)

/-- When the preference is absent, empty, or matches no candidate, narrowing
keeps the full list. -/
theorem narrowed_eq_self (items : List WItem) (p : Option String)
    (h : ¬ ∃ i ∈ items, i.style = p ∧ optStrTruthy p = true) :
    narrowed items p = items := by
  unfold narrowed
  by_cases htruthy : optStrTruthy p = true
  · rw [if_pos htruthy]
    have hnil : items.filter (fun i => decide (i.style = p)) = [] := by
      rw [List.filter_eq_nil_iff]
      intro a ha
      simp only [decide_eq_true_eq]
      intro hs
      exact h ⟨a, ha, hs, htruthy⟩
    rw [if_pos (by rw [hnil]; rfl)]
  · rw [if_neg htruthy]

/-- Elements of the first `n` of a `Pairwise`-ordered list are related to
every element beyond them. -/
theorem pairwise_take_drop {α : Type} {r : α → α → Prop} {l : List α} (n : Nat)
    (h : List.Pairwise r l) : ∀ a ∈ l.take n, ∀ b ∈ l.drop n, r a b :=
  (List.pairwise_append.mp (by rw [List.take_append_drop]; exact h)).2.2

/-- A member of a list beyond its first `n` positions. -/
theorem mem_drop_of_not_mem_take {α : Type} {l : List α} {y : α} (n : Nat)
    (hy : y ∈ l) (hn : y ∉ l.take n) : y ∈ l.drop n := by
  have : y ∈ l.take n ++ l.drop n := by rw [List.take_append_drop]; exact hy
  rcases List.mem_append.mp this with h | h
  · exact absurd h hn
  · exact h

/-- C5: on every non-empty candidate list, the Item Selector succeeds and
returns a member of the low-wear pool — the first `min(3, count)` of the
narrowed candidates sorted ascending by wear count — hence a member of the
input list; the pool is wear-count-sorted, every candidate outside it wears
at least as much as every pool member, the narrowing keeps exactly the exact
style matches when one exists and the full list otherwise, and every pool
member is reached by some random draw. -/
theorem select_item_spec (items : List WItem) (style_pref : Option String) (rng : Nat)
    (h : items ≠ []) :
    ∃ x, select_item items style_pref rng = some x ∧
      x ∈ low_wear_pool items style_pref ∧ x ∈ items ∧
      (low_wear_pool items style_pref).length = min 3 (narrowed items style_pref).length ∧
      List.Pairwise wearLe (low_wear_pool items style_pref) ∧
      (∀ y ∈ narrowed items style_pref, y ∉ low_wear_pool items style_pref →
        ∀ z ∈ low_wear_pool items style_pref, z.wearCount ≤ y.wearCount) ∧
      ((∃ i ∈ items, i.style = style_pref ∧ optStrTruthy style_pref = true) →
        narrowed items style_pref = items.filter (fun i => decide (i.style = style_pref))) ∧
      ((¬ ∃ i ∈ items, i.style = style_pref ∧ optStrTruthy style_pref = true) →
        narrowed items style_pref = items) ∧
      (∀ y ∈ low_wear_pool items style_pref, ∃ r, select_item items style_pref r = some y) := by
  have hnarrow : narrowed items style_pref ≠ [] := narrowed_ne_nil style_pref h
  have hitems : items.isEmpty = false := by
    cases items with
    | nil => exact absurd rfl h
    | cons a l => rfl
  have hsorted := List.sorted_insertionSort wearLe (narrowed items style_pref)
  have hperm := List.perm_insertionSort wearLe (narrowed items style_pref)
  have hlen : (low_wear_pool items style_pref).length
      = min 3 (narrowed items style_pref).length := by
    unfold low_wear_pool
    simp only [List.length_take]
    rw [hperm.length_eq, Nat.min_assoc, Nat.min_self]
  have hpoolne : low_wear_pool items style_pref ≠ [] := by
    have hpos : 0 < (narrowed items style_pref).length := List.length_pos.mpr hnarrow
    have : 0 < (low_wear_pool items style_pref).length := by
      rw [hlen]
      exact Nat.lt_min.mpr ⟨by norm_num, hpos⟩
    exact List.length_pos.mp this
  have hsel : ∀ r, select_item items style_pref r
      = randomChoice (low_wear_pool items style_pref) r := by
    intro r
    unfold select_item
    rw [hitems]
    rfl
  have hpool_sub : low_wear_pool items style_pref ⊆ narrowed items style_pref := by
    intro a ha
    exact (List.mem_insertionSort wearLe).mp
      ((List.take_sublist _ _).subset ha)
  obtain ⟨x, hx, hxmem⟩ := randomChoice_isSome rng hpoolne
  refine ⟨x, by rw [hsel]; exact hx, hxmem,
    narrowed_subset items style_pref (hpool_sub hxmem), hlen, ?_, ?_,
    narrowed_eq_filter items style_pref, narrowed_eq_self items style_pref, ?_⟩
  · exact hsorted.sublist (List.take_sublist _ _)
  · intro y hy hynot z hz
    have hys : y ∈ List.insertionSort wearLe (narrowed items style_pref) :=
      (List.mem_insertionSort wearLe).mpr hy
    have hydrop := mem_drop_of_not_mem_take _ hys hynot
    exact pairwise_take_drop _ hsorted z hz y hydrop
  · intro y hy
    obtain ⟨r, hr⟩ := randomChoice_surj hy
    exact ⟨r, by rw [hsel]; exact hr⟩

/-- Concrete candidate pools for witnesses. -/
def witnessTops : List WItem :=
  [⟨10, "tops", some "white", some "casual", 4⟩,
   ⟨11, "tops", some "blue", some "formal", 1⟩,
   ⟨12, "tops", none, none, 0⟩,
   ⟨13, "tops", some "green", some "sporty", 2⟩]

/-- Witness for C5 at a concrete four-item pool with no preference. -/
theorem select_item_spec_witness :
    ∃ x, select_item witnessTops none 0 = some x ∧
      x ∈ low_wear_pool witnessTops none ∧ x ∈ witnessTops := by
  obtain ⟨x, h1, h2, h3, _⟩ := select_item_spec witnessTops none 0 (by decide)
  exact ⟨x, h1, h2, h3⟩

/-- Every scored pair carries the score of its own item. -/
theorem scored_items_snd {items : List WItem} {ref : WItem} {style_pref : Option String}
    {p : WItem × Nat} (h : p ∈ scored_items items ref style_pref) :
    p.1 ∈ items ∧ p.2 = scoreItem p.1 ref style_pref := by
  unfold scored_items at h
  obtain ⟨i, hi, hp⟩ := List.mem_map.mp h
  rw [← hp]
  exact ⟨hi, rfl⟩

/-- C8: on every non-empty candidate list the Matching Selector's
top-candidate pool has exactly `min(3, count)` elements, hence is non-empty;
every scored candidate outside the pool scores no higher than any pool
member; and the selector returns an element of the pool — the defensive
fallback over the full input list is never taken. -/
theorem matching_fallback_unreachable (items : List WItem) (ref : WItem)
    (style_pref : Option String) (secondary_ref : Option WItem) (rng : Nat)
    (h : items ≠ []) :
    top_candidates items ref style_pref ≠ [] ∧
    (top_candidates items ref style_pref).length = min 3 items.length ∧
    (∀ p ∈ top_candidates items ref style_pref,
      ∀ q ∈ scored_items items ref style_pref,
        q ∉ top_candidates items ref style_pref → q.2 ≤ p.2) ∧
    ∃ x, select_matching_item items ref style_pref secondary_ref rng = some x ∧
      (x, scoreItem x ref style_pref) ∈ top_candidates items ref style_pref ∧
      x ∈ items := by
  have hslen : (scored_items items ref style_pref).length = items.length := by
    unfold scored_items
    exact List.length_map _ _
  have hsorted := List.sorted_insertionSort scoreGe (scored_items items ref style_pref)
  have hperm := List.perm_insertionSort scoreGe (scored_items items ref style_pref)
  have hlen : (top_candidates items ref style_pref).length = min 3 items.length := by
    unfold top_candidates
    simp only [List.length_take]
    rw [hperm.length_eq, hslen, Nat.min_assoc, Nat.min_self]
  have hpos : 0 < (top_candidates items ref style_pref).length := by
    rw [hlen]
    exact Nat.lt_min.mpr ⟨by norm_num, List.length_pos.mpr h⟩
  have hne : top_candidates items ref style_pref ≠ [] := List.length_pos.mp hpos
  have hitems : items.isEmpty = false := by
    cases items with
    | nil => exact absurd rfl h
    | cons a l => rfl
  have htopempty : (top_candidates items ref style_pref).isEmpty = false := by
    cases htc : top_candidates items ref style_pref with
    | nil => exact absurd htc hne
    | cons a l => rfl
  have hsub : top_candidates items ref style_pref ⊆ scored_items items ref style_pref := by
    intro p hp
    exact hperm.subset ((List.take_sublist _ _).subset hp)
  refine ⟨hne, hlen, ?_, ?_⟩
  · intro p hp q hq hqnot
    have hqs : q ∈ List.insertionSort scoreGe (scored_items items ref style_pref) :=
      hperm.mem_iff.mpr hq
    have hqdrop := mem_drop_of_not_mem_take _ hqs hqnot
    exact pairwise_take_drop _ hsorted p hp q hqdrop
  · obtain ⟨p, hpchoice, hpmem⟩ := randomChoice_isSome rng hne
    obtain ⟨hp1, hp2⟩ := scored_items_snd (hsub hpmem)
    refine ⟨p.1, ?_, ?_, hp1⟩
    · unfold select_matching_item
      rw [hitems, htopempty]
      simp only [Bool.false_eq_true, if_false, hpchoice, Option.map_some]
      rfl
    · have : (p.1, scoreItem p.1 ref style_pref) = p := by
        rw [← hp2]
      rw [this]
      exact hpmem

/-- Witness for C8: a concrete two-candidate pool against the navy
reference. -/
theorem matching_fallback_unreachable_witness :
    top_candidates witnessTops cNavy none ≠ [] ∧
    ∃ x, select_matching_item witnessTops cNavy none none 1 = some x ∧ x ∈ witnessTops := by
  obtain ⟨h1, _, _, x, h4, _, h6⟩ :=
    matching_fallback_unreachable witnessTops cNavy none none 1 (by decide)
  exact ⟨h1, x, h4, h6⟩

/-- `find?` returns the first satisfying element: its index is no larger
than that of any other satisfying member. -/
theorem find?_first_le {α : Type} [DecidableEq α] {p : α → Bool} :
    ∀ {l : List α} {a : α}, l.find? p = some a → ∀ b ∈ l, p b = true →
      List.indexOf a l ≤ List.indexOf b l := by
  intro l
  induction l with
  | nil => intro a ha; simp [List.find?] at ha
  | cons x xs ih =>
    intro a ha b hb hpb
    cases hpx : p x with
    | true =>
      simp only [List.find?_cons, hpx, Option.some.injEq] at ha
      subst ha
      rw [List.indexOf_cons_self]
      exact Nat.zero_le _
    | false =>
      simp only [List.find?_cons, hpx] at ha
      have hpa := List.find?_some ha
      have hax : a ≠ x := fun he => by rw [he, hpx] at hpa; exact Bool.false_ne_true hpa
      have hbx : b ≠ x := fun he => by rw [he, hpx] at hpb; exact Bool.false_ne_true hpb
      have hbxs : b ∈ xs := by
        rcases List.mem_cons.mp hb with h | h
        · exact absurd h hbx
        · exact h
      have hxa : (x == a) = false := beq_eq_false_iff_ne.mpr (Ne.symm hax)
      have hxb : (x == b) = false := beq_eq_false_iff_ne.mpr (Ne.symm hbx)
      rw [List.indexOf_cons, List.indexOf_cons, hxa, hxb]
      exact Nat.succ_le_succ (ih ha b hbxs hpb)

/-- Every non-empty list has an element maximizing a numeric weight. -/
theorem exists_argmax {α : Type} (f : α → Nat) :
    ∀ l : List α, l ≠ [] → ∃ s ∈ l, ∀ t ∈ l, f t ≤ f s := by
  intro l
  induction l with
  | nil => intro h; exact absurd rfl h
  | cons x xs ih =>
    intro _
    by_cases hxs : xs = []
    · subst hxs
      refine ⟨x, List.mem_cons_self x [], ?_⟩
      intro t ht
      rcases List.mem_cons.mp ht with h | h
      · subst h; exact Nat.le_refl _
      · exact absurd h (List.not_mem_nil t)
    · obtain ⟨s, hs, hmax⟩ := ih hxs
      by_cases hcmp : f x ≤ f s
      · refine ⟨s, List.mem_cons_of_mem x hs, ?_⟩
        intro t ht
        rcases List.mem_cons.mp ht with h | h
        · subst h; exact hcmp
        · exact hmax t h
      · refine ⟨x, List.mem_cons_self x xs, ?_⟩
        intro t ht
        rcases List.mem_cons.mp ht with h | h
        · subst h; exact Nat.le_refl _
        · exact Nat.le_trans (hmax t h) (Nat.le_of_lt (Nat.lt_of_not_le hcmp))

/-- Modelled from the documented semantics of Python's
`collections.Counter(styles).most_common(1)` as called by
`_determine_outfit_style`: the counter stores keys in first-occurrence
order and `most_common` sorts them stably by descending multiplicity, so
`most_common(1)` yields the first element of the list achieving the maximal
multiplicity. -/
def counter_most_common (l : List String) : Option String :=
  l.find? (fun s => l.all (fun t => decide (List.count t l ≤ List.count s l)))

/-- On a non-empty list, `counter_most_common` returns a member with
maximal multiplicity whose first occurrence is no later than that of any
other maximal element. -/
theorem counter_most_common_spec {l : List String} (h : l ≠ []) :
    ∃ s, counter_most_common l = some s ∧ s ∈ l ∧
      (∀ t ∈ l, List.count t l ≤ List.count s l) ∧
      (∀ t ∈ l, List.count t l = List.count s l →
        List.indexOf s l ≤ List.indexOf t l) := by
  obtain ⟨w, hw, hwmax⟩ := exists_argmax (fun t => List.count t l) l h
  have hwp : (l.all (fun t => decide (List.count t l ≤ List.count w l))) = true := by
    rw [List.all_eq_true]
    intro t ht
    exact decide_eq_true (hwmax t ht)
  have hsome : (l.find? (fun s => l.all (fun t =>
      decide (List.count t l ≤ List.count s l)))).isSome = true :=
    List.find?_isSome.mpr ⟨w, hw, hwp⟩
  obtain ⟨s, hs⟩ := Option.isSome_iff_exists.mp hsome
  have hsmem := List.mem_of_find?_eq_some hs
  have hsp := List.find?_some hs
  rw [List.all_eq_true] at hsp
  have hsmax : ∀ t ∈ l, List.count t l ≤ List.count s l := by
    intro t ht
    exact of_decide_eq_true (hsp t ht)
  refine ⟨s, hs, hsmem, hsmax, ?_⟩
  intro t ht htc
  have htp : (l.all (fun u => decide (List.count u l ≤ List.count t l))) = true := by
    rw [List.all_eq_true]
    intro u hu
    exact decide_eq_true (Nat.le_trans (hsmax u hu) (Nat.le_of_eq htc.symm))
  exact find?_first_le hs t ht htp

/-- The chosen outfit slots, fields in the dictionary insertion order of
`generate_outfit`: top, bottom, shoes, layer, accessory. -/
structure OutfitItems where
  top : Option WItem
  bottom : Option WItem
  shoes : Option WItem
  layer : Option WItem
  accessory : Option WItem
deriving Repr, DecidableEq

/-- The style list collected by `_determine_outfit_style`: iterate the
chosen slots in insertion order and keep the raw style of every present
item whose style is truthy (`if item and item.get('style')`). -/
def stylesOf (oi : OutfitItems) : List String :=
  ([oi.top, oi.bottom, oi.shoes, oi.layer, oi.accessory].filterMap id).filterMap
    (fun i => match i.style with
      | some s => if s = "" then none else some s
      | none => none)

/-- `_determine_outfit_style`: casual when no style was collected,
otherwise the most common collected style. -/
def determine_outfit_style (oi : OutfitItems) : String :=
  if (stylesOf oi).isEmpty then "casual"
  else match counter_most_common (stylesOf oi) with
    | some s => s
    | none => "casual"

/-- C6: the overall outfit style is casual when no chosen item carries a
truthy style; otherwise it is a collected style with maximal multiplicity,
and among the maximal styles it is the one first encountered in slot
iteration order. -/
theorem outfit_style_most_common (oi : OutfitItems) :
    (stylesOf oi = [] → determine_outfit_style oi = "casual") ∧
    (stylesOf oi ≠ [] →
      determine_outfit_style oi ∈ stylesOf oi ∧
      (∀ s ∈ stylesOf oi,
        List.count s (stylesOf oi) ≤ List.count (determine_outfit_style oi) (stylesOf oi)) ∧
      (∀ s ∈ stylesOf oi,
        List.count s (stylesOf oi) = List.count (determine_outfit_style oi) (stylesOf oi) →
        List.indexOf (determine_outfit_style oi) (stylesOf oi) ≤
          List.indexOf s (stylesOf oi))) := by
  constructor
  · intro hnil
    unfold determine_outfit_style
    rw [if_pos (by rw [hnil]; rfl)]
  · intro hne
    obtain ⟨s, hs, hmem, hmax, hfirst⟩ := counter_most_common_spec hne
    have hd : determine_outfit_style oi = s := by
      unfold determine_outfit_style
      rw [if_neg (fun hempty => hne (List.isEmpty_iff.mp hempty)), hs]
    rw [hd]
    exact ⟨hmem, hmax, hfirst⟩

/-- A chosen-slot assignment with a formal/sporty tie: formal is first
encountered. -/
def oiTie : OutfitItems :=
  ⟨some ⟨20, "tops", some "white", some "formal", 0⟩,
   some ⟨21, "bottoms", some "black", some "sporty", 0⟩,
   some ⟨22, "shoes", some "white", some "sporty", 0⟩,
   some ⟨23, "layers", none, some "formal", 0⟩,
   none⟩

/-- A chosen-slot assignment with no styled item. -/
def oiBare : OutfitItems := ⟨some ⟨24, "tops", some "white", none, 0⟩, none, none, none, none⟩

/-- Witness for C6: the default branch on an unstyled outfit and the
most-common branch on a tied outfit. -/
theorem outfit_style_most_common_witness :
    determine_outfit_style oiBare = "casual" ∧
    determine_outfit_style oiTie ∈ stylesOf oiTie :=
  ⟨(outfit_style_most_common oiBare).1 (by decide),
   ((outfit_style_most_common oiTie).2 (by decide)).1⟩

/-- One group of `_get_items_by_category`: the wardrobe items of a category
in store order; an absent category is the empty list (callers treat both the
missing key and the empty pool as falsy). -/
def itemsInCategory (items : List WItem) (c : String) : List WItem :=
  items.filter (fun i => decide (i.category = c))

/-- The API response shape built by `_outfit_to_response`. -/
structure OutfitResponse where
  id : Nat
  name : String
  styleTag : String
  description : String
  items : OutfitItems
  createdAt : Nat
  isLiked : Bool
  isSaved : Bool
deriving Repr, DecidableEq

/-- `ClothingItem.query.get(i)`: fetch a wardrobe item by id. -/
def fetchItem (st : Store) (i : Nat) : Option WItem :=
  st.items.find? (fun x => decide (x.id = i))

/-- One slot of the items-reconstruction path of `_outfit_to_response`:
`if outfit.slot_id: item = query.get(slot_id); if item: items[slot] = item`.
An untruthy stored id or a failed fetch silently leaves the slot absent. -/
def loadSlot (st : Store) (oid : Option Nat) : Option WItem :=
  if idTruthy oid then
    match oid with
    | some i => fetchItem st i
    | none => none
  else none

/-- The items mapping `_outfit_to_response` reconstructs from stored ids
alone (the `items is None` branch). -/
def load_items (st : Store) (o : OutfitRow) : OutfitItems :=
  ⟨loadSlot st o.top_id, loadSlot st o.bottom_id, loadSlot st o.shoes_id,
   loadSlot st o.layer_id, loadSlot st o.accessory_id⟩

/-- `_outfit_to_response`: package a persisted outfit row, using the given
item objects when generation just produced them and reconstructing them from
stored ids otherwise. -/
def outfit_to_response (st : Store) (o : OutfitRow) (given : Option OutfitItems) :
    OutfitResponse :=
  { id := o.id, name := o.name, styleTag := o.style_tag, description := o.description,
    items := match given with
      | some oi => oi
      | none => load_items st o,
    createdAt := o.created_at, isLiked := o.is_liked, isSaved := o.is_saved }

/-- The random draws one call to `generate_outfit` may consume: an index for
each `random.choice` and a coin for each `random.random()` threshold test. -/
structure RandDraws where
  topRng : Nat
  bottomRng : Nat
  shoesRng : Nat
  layerCoin : Bool
  layerRng : Nat
  accCoin : Bool
  accRng : Nat
  descRng : Nat
deriving Repr, DecidableEq

/-- The ambient clock and id assignment of one generation call: the
formatted date for the outfit name, the `created_at` timestamp, and the id
the store will assign to the new row. -/
structure GenEnv where
  dateStr : String
  now : Nat
  nextId : Nat
deriving Repr, DecidableEq

/-- `generate_outfit`: precondition check on the tops and bottoms pools,
slot-by-slot selection, overall style determination, record assembly,
persistence, and response construction.  Returns the response (or `None`)
together with the resulting store. -/
def generate_outfit (st : Store) (style_preference : Option String) (r : RandDraws)
    (env : GenEnv) : Option OutfitResponse × Store :=
  if (itemsInCategory st.items "tops").isEmpty
      || (itemsInCategory st.items "bottoms").isEmpty then (none, st)
  else
    match select_item (itemsInCategory st.items "tops") style_preference r.topRng with
    | none => (none, st)
    | some top =>
      match select_matching_item (itemsInCategory st.items "bottoms") top
          style_preference none r.bottomRng with
      | none => (none, st)
      | some bottom =>
        let shoes : Option WItem :=
          if !(itemsInCategory st.items "shoes").isEmpty then
            select_matching_item (itemsInCategory st.items "shoes") top
              style_preference (some bottom) r.shoesRng
          else none
        let layer : Option WItem :=
          if !(itemsInCategory st.items "layers").isEmpty && r.layerCoin then
            select_matching_item (itemsInCategory st.items "layers") top
              style_preference none r.layerRng
          else none
        let accessory : Option WItem :=
          if !(itemsInCategory st.items "accessories").isEmpty && r.accCoin then
            randomChoice (itemsInCategory st.items "accessories") r.accRng
          else none
        let oi : OutfitItems := ⟨some top, some bottom, shoes, layer, accessory⟩
        let overall := determine_outfit_style oi
        let outfit : OutfitRow :=
          { id := env.nextId,
            name := "Outfit " ++ env.dateStr,
            style_tag := style_tag_for overall,
            description := (randomChoice (descriptions_for overall) r.descRng).getD "",
            top_id := some top.id,
            bottom_id := some bottom.id,
            layer_id := layer.map (fun i => i.id),
            shoes_id := shoes.map (fun i => i.id),
            accessory_id := accessory.map (fun i => i.id),
            created_at := env.now,
            is_liked := false,
            is_saved := false }
        let st2 : Store := { st with outfits := st.outfits ++ [outfit] }
        (some (outfit_to_response st2 outfit (some oi)), st2)

/-- `generate_daily_outfit`: return the response of the first outfit created
at or after the start of the current day if one exists, otherwise generate a
new outfit. -/
def generate_daily_outfit (st : Store) (todayStart : Nat) (r : RandDraws) (env : GenEnv) :
    Option OutfitResponse × Store :=
  match st.outfits.find? (fun o => decide (todayStart ≤ o.created_at)) with
  | some existing => (some (outfit_to_response st existing none), st)
  | none => generate_outfit st none r env

/-- C3: when the tops pool or the bottoms pool is empty (or the category is
absent), `generate_outfit` fails with no outfit produced and the store —
in particular the outfit list — is unchanged. -/
theorem insufficient_wardrobe_no_persist (st : Store) (style_preference : Option String)
    (r : RandDraws) (env : GenEnv)
    (h : itemsInCategory st.items "tops" = [] ∨ itemsInCategory st.items "bottoms" = []) :
    generate_outfit st style_preference r env = (none, st) := by
  unfold generate_outfit
  rcases h with h | h <;> rw [h] <;> simp

/-- Witness for C3: a wardrobe with a single bottoms item and no tops. -/
theorem insufficient_wardrobe_no_persist_witness :
    generate_outfit ⟨[⟨30, "bottoms", some "blue", none, 0⟩], []⟩ none
      ⟨0, 0, 0, false, 0, false, 0, 0⟩ ⟨"01/01", 0, 1⟩ =
      (none, ⟨[⟨30, "bottoms", some "blue", none, 0⟩], []⟩) :=
  insufficient_wardrobe_no_persist _ none _ _ (Or.inl (by decide))

/-- C4: when some outfit was created at or after the start of the current
day, `generate_daily_outfit` returns the response of the first such stored
outfit — carrying that outfit's id — and leaves the store unchanged, so no
new record is generated or persisted. -/
theorem daily_outfit_cached (st : Store) (todayStart : Nat) (r : RandDraws) (env : GenEnv)
    (h : ∃ o ∈ st.outfits, todayStart ≤ o.created_at) :
    ∃ o, st.outfits.find? (fun x => decide (todayStart ≤ x.created_at)) = some o ∧
      o ∈ st.outfits ∧ todayStart ≤ o.created_at ∧
      generate_daily_outfit st todayStart r env = (some (outfit_to_response st o none), st) ∧
      (outfit_to_response st o none).id = o.id := by
  obtain ⟨w, hw, hwle⟩ := h
  have hsome : (st.outfits.find? (fun x => decide (todayStart ≤ x.created_at))).isSome = true :=
    List.find?_isSome.mpr ⟨w, hw, decide_eq_true hwle⟩
  obtain ⟨o, ho⟩ := Option.isSome_iff_exists.mp hsome
  have hmem := List.mem_of_find?_eq_some ho
  have hple := List.find?_some ho
  simp only [decide_eq_true_eq] at hple
  refine ⟨o, ho, hmem, hple, ?_, rfl⟩
  unfold generate_daily_outfit
  rw [ho]

/-- A concrete wardrobe item for the store-level witnesses. -/
def itemW : WItem := ⟨40, "tops", some "white", some "casual", 1⟩

/-- A concrete stored outfit whose top id resolves to `itemW` and whose
other slots are absent or untruthy. -/
def rowW : OutfitRow :=
  { id := 7, name := "Outfit 01/02", style_tag := "Clean Casual",
    description := "simple and clean look", top_id := some 40, bottom_id := none,
    layer_id := none, shoes_id := none, accessory_id := some 0,
    created_at := 100, is_liked := false, is_saved := false }

/-- A store holding one wardrobe item and one stored outfit referencing it. -/
def storeW : Store := ⟨[itemW], [rowW]⟩

/-- Witness for C4: the stored outfit of `storeW` was created after the day
start 50, so the daily call returns it and leaves the store unchanged. -/
theorem daily_outfit_cached_witness :
    ∃ o, generate_daily_outfit storeW 50 ⟨0, 0, 0, false, 0, false, 0, 0⟩ ⟨"01/03", 120, 8⟩ =
      (some (outfit_to_response storeW o none), storeW) ∧ o.id = 7 := by
  obtain ⟨o, ho1, _, _, ho4, _⟩ :=
    daily_outfit_cached storeW 50 ⟨0, 0, 0, false, 0, false, 0, 0⟩ ⟨"01/03", 120, 8⟩
      ⟨storeW.outfits.head (by decide), by decide, by decide⟩
  have : o.id = 7 := by
    have := ho1
    rw [show storeW.outfits.find? (fun x => decide (50 ≤ x.created_at)) =
      some (storeW.outfits.head (by decide)) from by decide] at this
    cases this
    decide
  exact ⟨o, ho4, this⟩

/-- A reconstructed slot is occupied exactly when the stored id resolves to
an existing item, provided no wardrobe item carries the impossible store id
0. -/
theorem loadSlot_spec (st : Store) (oid : Option Nat)
    (hid : ∀ i ∈ st.items, i.id ≠ 0) (it : WItem) :
    loadSlot st oid = some it ↔ ∃ n, oid = some n ∧ fetchItem st n = some it := by
  cases oid with
  | none => simp [loadSlot, idTruthy]
  | some n =>
    by_cases hn : n = 0
    · subst hn
      constructor
      · intro h
        simp [loadSlot, idTruthy] at h
      · rintro ⟨m, hm, hf⟩
        cases hm
        exfalso
        have hmem := List.mem_of_find?_eq_some hf
        have hp := List.find?_some hf
        simp only [decide_eq_true_eq] at hp
        exact hid it hmem hp
    · have ht : idTruthy (some n) = true := by simp [idTruthy, hn]
      unfold loadSlot
      rw [ht]
      constructor
      · intro h
        exact ⟨n, rfl, h⟩
      · rintro ⟨m, hm, hf⟩
        cases hm
        exact hf

/-- C9: on the reconstruction path (daily-cache hit, no freshly generated
items), the response's items mapping holds exactly the slots whose stored
item id still resolves to an existing wardrobe item; a slot whose item can
no longer be fetched is silently absent rather than a null entry or an
error.  Store-assigned ids are positive, captured by the hypothesis on the
wardrobe. -/
theorem cached_response_items_resolvable (st : Store) (o : OutfitRow)
    (hid : ∀ i ∈ st.items, i.id ≠ 0) :
    (outfit_to_response st o none).items = load_items st o ∧
    (∀ it, (load_items st o).top = some it ↔
      ∃ n, o.top_id = some n ∧ fetchItem st n = some it) ∧
    (∀ it, (load_items st o).bottom = some it ↔
      ∃ n, o.bottom_id = some n ∧ fetchItem st n = some it) ∧
    (∀ it, (load_items st o).shoes = some it ↔
      ∃ n, o.shoes_id = some n ∧ fetchItem st n = some it) ∧
    (∀ it, (load_items st o).layer = some it ↔
      ∃ n, o.layer_id = some n ∧ fetchItem st n = some it) ∧
    (∀ it, (load_items st o).accessory = some it ↔
      ∃ n, o.accessory_id = some n ∧ fetchItem st n = some it) :=
  ⟨rfl,
   fun it => loadSlot_spec st o.top_id hid it,
   fun it => loadSlot_spec st o.bottom_id hid it,
   fun it => loadSlot_spec st o.shoes_id hid it,
   fun it => loadSlot_spec st o.layer_id hid it,
   fun it => loadSlot_spec st o.accessory_id hid it⟩

/-- Witness for C9: in `storeW` the stored top id 40 resolves to `itemW`,
so the reconstructed top slot holds it. -/
theorem cached_response_items_resolvable_witness :
    (load_items storeW rowW).top = some itemW :=
  ((cached_response_items_resolvable storeW rowW (by decide)).2.1 itemW).mpr
    ⟨40, rfl, by decide⟩

/-- C10: record assembly is total in the overall style: the style tag is
always one of the four fixed labels, the description pool is always
non-empty, an unrecognized style falls back to the Clean Casual tag and the
casual phrase set, and the description draw always succeeds with a phrase
from the pool — assembly never fails on an unrecognized style. -/
theorem record_assembly_total (s : String) :
    style_tag_for s ∈ ["Clean Casual", "Smart Formal", "Active Fit", "Street Style"] ∧
    descriptions_for s ≠ [] ∧
    (s ∉ ["casual", "formal", "sporty", "streetwear"] →
      style_tag_for s = "Clean Casual" ∧ descriptions_for s = casualDescriptions) ∧
    (∀ r, ∃ d, randomChoice (descriptions_for s) r = some d ∧ d ∈ descriptions_for s) := by
  by_cases h1 : s = "casual"
  · subst h1
    exact ⟨by decide, by decide, fun hmem => absurd (by decide) hmem,
      fun r => randomChoice_isSome r (by decide)⟩
  by_cases h2 : s = "formal"
  · subst h2
    exact ⟨by decide, by decide, fun hmem => absurd (by decide) hmem,
      fun r => randomChoice_isSome r (by decide)⟩
  by_cases h3 : s = "sporty"
  · subst h3
    exact ⟨by decide, by decide, fun hmem => absurd (by decide) hmem,
      fun r => randomChoice_isSome r (by decide)⟩
  by_cases h4 : s = "streetwear"
  · subst h4
    exact ⟨by decide, by decide, fun hmem => absurd (by decide) hmem,
      fun r => randomChoice_isSome r (by decide)⟩
  have htag : styleTagsGet s = none := by
    unfold styleTagsGet
    rw [if_neg h1, if_neg h2, if_neg h3, if_neg h4]
  have hdesc : styleDescriptionsGet s = none := by
    unfold styleDescriptionsGet
    rw [if_neg h1, if_neg h2, if_neg h3, if_neg h4]
  have htagf : style_tag_for s = "Clean Casual" := by
    unfold style_tag_for
    rw [htag]
    rfl
  have hdescf : descriptions_for s = casualDescriptions := by
    unfold descriptions_for
    rw [hdesc]
    rfl
  refine ⟨by rw [htagf]; decide, by rw [hdescf]; decide, fun _ => ⟨htagf, hdescf⟩, ?_⟩
  intro r
  rw [hdescf]
  exact randomChoice_isSome r (by decide)

/-- Witness for C10: the unrecognized style boho falls back to the casual
tables. -/
theorem record_assembly_total_witness :
    style_tag_for "boho" = "Clean Casual" ∧ descriptions_for "boho" = casualDescriptions :=
  (record_assembly_total "boho").2.2.1 (by decide)
